import Mathlib

/-!
# Verification of the rectangle-animation core

A shallow embedding of the two C++ source files of the repository
`Grapics-Lab-` ("Dynamic Multi-Color Rectangle Motion & Jump Animation in
OpenGL1"), covering the Scene Builder (`generateRectangles`) and the Motion
Evaluator (`updateMovingRectanglePosition`).

Conventions of the embedding:
* `float` values and `float` arithmetic are modelled by exact rational
  arithmetic over `ℚ` (decimal literals become the exact rationals they
  denote), except for the dedicated binary32 rounding model used for the
  single numerical claim about the floating-point arithmetic of the program.
* `sin` is `Real.sin`, so the `y` coordinate of a computed position lives in
  `ℝ`; the `x` and `z` coordinates are exactly computed rationals.
* the C `fmod` is `qfmod` below (remainder with truncation toward zero).
* `namespace Src` embeds `src/main.cpp`; `namespace Alt` embeds
  `main (2).cpp` (the second copy of the program at the repository root).
-/

set_option maxRecDepth 8000
set_option linter.unusedVariables false

namespace RectAnim

/-- Embeds `struct Rectangle` (identical in both source files): position and color
are `glm::vec3` of floats, modelled as rational triples. -/
structure Rectangle where
  position : ℚ × ℚ × ℚ
  color : ℚ × ℚ × ℚ
  width : ℚ
  height : ℚ
  isStationary : Bool

/-- Embedding of the `glm::vec3` returned by the Motion Evaluator: `x` and `z` are exactly
computed rationals, `y` involves `sin` and lives in `ℝ`. -/
structure Vec3 where
  x : ℚ
  y : ℝ
  z : ℚ

/-- Embeds the C `fmod a b`: `a - b * trunc (a / b)` (truncation toward zero). In the
program it is only reached with `a ≥ 0`, `b = 6`. -/
def qfmod (a b : ℚ) : ℚ :=
  if 0 ≤ a / b then a - b * (⌊a / b⌋ : ℚ) else a - b * (⌈a / b⌉ : ℚ)

namespace Src

/-- Embeds `float cycleTime = 6.0f` in `updateMovingRectanglePosition`. -/
def cycleTime : ℚ := 6

/-- Embeds `float delayBetweenRectangles = 1.5f`. -/
def delayBetweenRectangles : ℚ := 3/2

/-- Embeds `float adjustedTime = time - (rectIndex * delayBetweenRectangles)`. -/
def adjustedTime (time : ℚ) (rectIndex : ℤ) : ℚ :=
  time - rectIndex * delayBetweenRectangles

/-- Embeds `float baseY = 0.2f`. -/
def baseY : ℚ := 1/5

/-- Embeds `float jumpHeight = 0.35f`. -/
def jumpHeight : ℚ := 7/20

/-- Embeds `std::vector<float> stationaryPositions = {-0.7f, -0.25f, 0.2f, 0.65f}`. -/
def stationaryPositions : List ℚ := [-7/10, -1/4, 1/5, 13/20]

/-- Embeds `float jumpRadius = 0.12f`. -/
def jumpRadius : ℚ := 3/25

/-- The literal `3.14159f` that multiplies `jumpFactor` in the `sin` call. -/
def piLit : ℝ := 3.14159

/-- The `for (float stationaryX : stationaryPositions)` loop with `break`:
the first list element within `jumpRadius` of `x`, if any. -/
def firstObstacle : List ℚ → ℚ → Option ℚ
  | [], _ => none
  | sx :: rest, x =>
    if |x - sx| < jumpRadius then some sx else firstObstacle rest x

/-- The amount added to `y` by the jump loop: zero when no obstacle is within
`jumpRadius` of `x`, otherwise `jumpHeight * sin(jumpFactor * 3.14159f)` for
the first matching obstacle, where
`jumpFactor = 1 - |x - stationaryX| / jumpRadius`. -/
noncomputable def jumpOffset (x : ℚ) : ℝ :=
  (firstObstacle stationaryPositions x).elim 0
    (fun sx => (jumpHeight : ℝ) * Real.sin ((1 - |x - sx| / jumpRadius : ℚ) * piLit))

/-- Embeds `float x = -1.2f + (adjustedTime / cycleTime) * 2.4f;` followed by the
guard `if (x > 1.2f) x = -1.2f;`, as a function of the already-reduced
adjusted time `a`. -/
def movingX (a : ℚ) : ℚ :=
  if -6/5 + (a / cycleTime) * (12/5) > 6/5 then -6/5
  else -6/5 + (a / cycleTime) * (12/5)

/-- Embeds `glm::vec3 updateMovingRectanglePosition(const Rectangle& rect, float
time, int rectIndex)` from `src/main.cpp`, lines 124-163. The `rect`
argument is never read by the body. -/
noncomputable def updateMovingRectanglePosition
    (rect : Rectangle) (time : ℚ) (rectIndex : ℤ) : Vec3 :=
  if adjustedTime time rectIndex < 0 then
    ⟨-6/5, ((1/5 : ℚ) : ℝ), 0⟩
  else
    ⟨movingX (qfmod (adjustedTime time rectIndex) cycleTime),
     (baseY : ℝ) + jumpOffset (movingX (qfmod (adjustedTime time rectIndex) cycleTime)),
     0⟩

/-- Embeds `std::vector<glm::vec3> stationaryColors` from `generateRectangles`. -/
def stationaryColors : List (ℚ × ℚ × ℚ) :=
  [(9/10, 1/10, 1/10), (1/10, 9/10, 1/10), (1/10, 1/5, 19/20), (1, 4/5, 0)]

/-- Embeds `std::vector<glm::vec3> movingColors` from `generateRectangles`. -/
def movingColors : List (ℚ × ℚ × ℚ) :=
  [(9/10, 0, 9/10), (0, 9/10, 9/10), (1, 9/20, 0), (1/2, 0, 1)]

/-- Embeds `float spacing = 0.45f`. -/
def spacing : ℚ := 9/20

/-- Embeds `std::vector<Rectangle> generateRectangles()` from `src/main.cpp`,
lines 80-121: four stationary rectangles at `(-0.7 + i*0.45, -0.5, 0)`,
then four moving rectangles all starting at `(-1.2, 0.2, 0)`. -/
def generateRectangles : List Rectangle :=
  ((List.range 4).map fun i =>
    { position := (-7/10 + (i : ℚ) * spacing, -1/2, 0)
      color := stationaryColors.getD i (0, 0, 0)
      width := 3/25
      height := 9/50
      isStationary := true })
  ++ ((List.range 4).map fun i =>
    { position := (-6/5, 1/5, 0)
      color := movingColors.getD i (0, 0, 0)
      width := 3/25
      height := 3/20
      isStationary := false })

end Src

namespace Alt

/-- Embeds `float cycleTime = 6.0f` from `main (2).cpp`. -/
def cycleTime : ℚ := 6

/-- Embeds `float delayBetweenRectangles = 1.5f` from `main (2).cpp`. -/
def delayBetweenRectangles : ℚ := 3/2

/-- Embeds `float adjustedTime = time - (rectIndex * delayBetweenRectangles)`
from `main (2).cpp`. -/
def adjustedTime (time : ℚ) (rectIndex : ℤ) : ℚ :=
  time - rectIndex * delayBetweenRectangles

/-- Embeds `float baseY = 0.2f` from `main (2).cpp`. -/
def baseY : ℚ := 1/5

/-- Embeds `float jumpHeight = 0.35f` from `main (2).cpp`. -/
def jumpHeight : ℚ := 7/20

/-- Embeds `std::vector<float> stationaryPositions = {-0.7f, -0.25f, 0.2f,
0.65f}` from `main (2).cpp`. -/
def stationaryPositions : List ℚ := [-7/10, -1/4, 1/5, 13/20]

/-- Embeds `float jumpRadius = 0.12f` from `main (2).cpp`. -/
def jumpRadius : ℚ := 3/25

/-- The literal `3.14159f` in the `sin` call of `main (2).cpp`. -/
def piLit : ℝ := 3.14159

/-- The obstacle loop with `break` from `main (2).cpp`. -/
def firstObstacle : List ℚ → ℚ → Option ℚ
  | [], _ => none
  | sx :: rest, x =>
    if |x - sx| < jumpRadius then some sx else firstObstacle rest x

/-- The amount the jump loop of `main (2).cpp` adds to `y`. -/
noncomputable def jumpOffset (x : ℚ) : ℝ :=
  (firstObstacle stationaryPositions x).elim 0
    (fun sx => (jumpHeight : ℝ) * Real.sin ((1 - |x - sx| / jumpRadius : ℚ) * piLit))

/-- Embeds `float x = -1.2f + (adjustedTime / cycleTime) * 2.4f;` and the
guard `if (x > 1.2f) x = -1.2f;` from `main (2).cpp`. -/
def movingX (a : ℚ) : ℚ :=
  if -6/5 + (a / cycleTime) * (12/5) > 6/5 then -6/5
  else -6/5 + (a / cycleTime) * (12/5)

/-- Embeds `glm::vec3 updateMovingRectanglePosition(const Rectangle& rect,
float time, int rectIndex)` from `main (2).cpp`, lines 127-166. -/
noncomputable def updateMovingRectanglePosition
    (rect : Rectangle) (time : ℚ) (rectIndex : ℤ) : Vec3 :=
  if adjustedTime time rectIndex < 0 then
    ⟨-6/5, ((1/5 : ℚ) : ℝ), 0⟩
  else
    ⟨movingX (qfmod (adjustedTime time rectIndex) cycleTime),
     (baseY : ℝ) + jumpOffset (movingX (qfmod (adjustedTime time rectIndex) cycleTime)),
     0⟩

/-- Embeds `std::vector<glm::vec3> stationaryColors` from `main (2).cpp`. -/
def stationaryColors : List (ℚ × ℚ × ℚ) :=
  [(9/10, 1/10, 1/10), (1/10, 9/10, 1/10), (1/10, 1/5, 19/20), (1, 4/5, 0)]

/-- Embeds `std::vector<glm::vec3> movingColors` from `main (2).cpp`. -/
def movingColors : List (ℚ × ℚ × ℚ) :=
  [(9/10, 0, 9/10), (0, 9/10, 9/10), (1, 9/20, 0), (1/2, 0, 1)]

/-- Embeds `float spacing = 0.45f` from `main (2).cpp`. -/
def spacing : ℚ := 9/20

/-- Embeds `std::vector<Rectangle> generateRectangles()` from
`main (2).cpp`, lines 83-124. -/
def generateRectangles : List Rectangle :=
  ((List.range 4).map fun i =>
    { position := (-7/10 + (i : ℚ) * spacing, -1/2, 0)
      color := stationaryColors.getD i (0, 0, 0)
      width := 3/25
      height := 9/50
      isStationary := true })
  ++ ((List.range 4).map fun i =>
    { position := (-6/5, 1/5, 0)
      color := movingColors.getD i (0, 0, 0)
      width := 3/25
      height := 3/20
      isStationary := false })

end Alt

/-- A concrete moving rectangle (the first moving entity the Scene Builder
creates), used as the irrelevant `rect` argument in concrete instantiations. -/
def sampleRect : Rectangle :=
  { position := (-6/5, 1/5, 0)
    color := (9/10, 0, 9/10)
    width := 3/25
    height := 3/20
    isStationary := false }

/-- Round a nonnegative rational to an integer, ties to even — the rounding
of significands used by IEEE-754 binary32, the type of every `float` in the
program. -/
def roundHalfEven (q : ℚ) : ℤ :=
  if q - ⌊q⌋ < 1/2 then ⌊q⌋
  else if (1:ℚ)/2 < q - ⌊q⌋ then ⌊q⌋ + 1
  else if ⌊q⌋ % 2 = 0 then ⌊q⌋ else ⌊q⌋ + 1

/-- Normalize a positive rational to a pair `(m, e)` with `m ∈ [1, 2)` and
`q = m * 2^e`. Fuel-bounded halving and doubling; fuel `12` covers every
magnitude in `[2⁻¹², 2¹²]`, far beyond the constants of the program. -/
def normExp : ℕ → ℚ → ℤ → ℚ × ℤ
  | 0, q, e => (q, e)
  | fuel+1, q, e =>
    if 1 ≤ q ∧ q < 2 then (q, e)
    else normExp fuel (if q < 1 then 2 * q else q / 2) (if q < 1 then e - 1 else e + 1)

/-- Multiplication by `2^k` for an integer `k`. -/
def shift2 (q : ℚ) (k : ℤ) : ℚ :=
  if 0 ≤ k then q * 2 ^ k.toNat else q / 2 ^ (-k).toNat

/-- IEEE-754 binary32 rounding (round to nearest, ties to even) of a
positive rational in the normal range: round the 24-bit significand
`m * 2^23` and scale back. -/
def flAbs (q : ℚ) : ℚ :=
  shift2 (roundHalfEven ((normExp 12 q 0).1 * 2 ^ 23) : ℚ) ((normExp 12 q 0).2 - 23)

/-- IEEE-754 binary32 rounding of any rational in the (signed) normal range:
the exact value of the `float` nearest to `q`. Used only for the claim that
compares the obstacle literals with the stationary x-coordinates under the
floating-point arithmetic the program actually performs. -/
def fl (q : ℚ) : ℚ :=
  if q < 0 then -flAbs (-q) else if q = 0 then 0 else flAbs q

/-- The stationary x-coordinate `-0.7f + i * spacing` exactly as binary32
evaluates it in `generateRectangles`: the literals `0.7f` and `0.45f` are
rounded once when parsed, the `int`-to-`float` conversion of `i ∈ [0,4)` is
exact, and the product and the sum each round once. -/
def stationaryXFloat (i : ℕ) : ℚ :=
  fl (fl (-7/10) + fl ((i : ℚ) * fl (9/20)))

/-- The obstacle literals `{-0.7f, -0.25f, 0.2f, 0.65f}` of
`updateMovingRectanglePosition` as binary32 values. -/
def obstacleFloats : List ℚ := Src.stationaryPositions.map fl

/-- Auxiliary: `qfmod` with both arguments nonnegative reduces to the floor
form, and adding one period `6` leaves it unchanged. -/
lemma qfmod_add_six (a : ℚ) (h : 0 ≤ a) : qfmod (a + 6) 6 = qfmod a 6 := by
  have h1 : (0:ℚ) ≤ a / 6 := by positivity
  have h2 : (0:ℚ) ≤ (a + 6) / 6 := by positivity
  rw [qfmod, qfmod, if_pos h1, if_pos h2]
  have h3 : (a + 6) / 6 = a / 6 + 1 := by ring
  rw [h3, Int.floor_add_one]
  push_cast
  ring

/-- Auxiliary: the jump offset is zero when the obstacle search fails. -/
lemma jumpOffset_of_none (x : ℚ)
    (h : Src.firstObstacle Src.stationaryPositions x = none) :
    Src.jumpOffset x = 0 := by
  rw [Src.jumpOffset, h]; rfl

/-- Auxiliary: the jump offset is the single sine contribution of the
obstacle the search returns. -/
lemma jumpOffset_of_some (x sx : ℚ)
    (h : Src.firstObstacle Src.stationaryPositions x = some sx) :
    Src.jumpOffset x = (Src.jumpHeight : ℝ) *
      Real.sin ((1 - |x - sx| / Src.jumpRadius : ℚ) * Src.piLit) := by
  rw [Src.jumpOffset, h]; rfl

/-- Auxiliary: a successful obstacle search returns an element within
`jumpRadius` of `x`. -/
lemma firstObstacle_some_lt (l : List ℚ) (x sx : ℚ)
    (h : Src.firstObstacle l x = some sx) : |x - sx| < Src.jumpRadius := by
  induction l with
  | nil => simp [Src.firstObstacle] at h
  | cons a rest ih =>
    rw [Src.firstObstacle] at h
    split_ifs at h with hc
    · injection h with h2
      rw [← h2]; exact hc
    · exact ih h

/-- Auxiliary: the literal `3.14159` is positive. -/
lemma piLit_pos : 0 < Src.piLit := by rw [Src.piLit]; norm_num

/-- Auxiliary: the literal `3.14159` is strictly below `π`. -/
lemma piLit_lt_pi : Src.piLit < Real.pi := by
  rw [Src.piLit]
  have h := Real.pi_gt_d6
  linarith

/-- Auxiliary: the jump offset is never negative (the sine is evaluated only
on arguments in `(0, 3.14159] ⊆ [0, π]`). -/
lemma jumpOffset_nonneg (x : ℚ) : 0 ≤ Src.jumpOffset x := by
  cases h : Src.firstObstacle Src.stationaryPositions x with
  | none => rw [jumpOffset_of_none x h]
  | some sx =>
    have hd := firstObstacle_some_lt _ _ _ h
    rw [Src.jumpRadius] at hd
    have hjf : (0:ℚ) ≤ 1 - |x - sx| / Src.jumpRadius := by
      rw [Src.jumpRadius]
      have habs : (0:ℚ) ≤ |x - sx| := abs_nonneg _
      have : |x - sx| / (3/25) < 1 := by rw [div_lt_one (by norm_num)]; linarith
      linarith
    rw [jumpOffset_of_some x sx h]
    apply mul_nonneg (by rw [Src.jumpHeight]; norm_num)
    apply Real.sin_nonneg_of_nonneg_of_le_pi
    · apply mul_nonneg _ (le_of_lt piLit_pos)
      exact_mod_cast hjf
    · have hjf1 : ((1 - |x - sx| / Src.jumpRadius : ℚ) : ℝ) ≤ 1 := by
        have habs : (0:ℚ) ≤ |x - sx| := abs_nonneg _
        have : (1 - |x - sx| / Src.jumpRadius : ℚ) ≤ 1 := by
          rw [Src.jumpRadius]
          have : (0:ℚ) ≤ |x - sx| / (3/25) := by positivity
          linarith
        exact_mod_cast this
      calc ((1 - |x - sx| / Src.jumpRadius : ℚ) : ℝ) * Src.piLit
          ≤ 1 * Src.piLit := by
            apply mul_le_mul_of_nonneg_right hjf1 (le_of_lt piLit_pos)
        _ = Src.piLit := one_mul _
        _ ≤ Real.pi := le_of_lt piLit_lt_pi

/-- Auxiliary: the jump offset is at most `jumpHeight = 0.35`. -/
lemma jumpOffset_le (x : ℚ) : Src.jumpOffset x ≤ 7/20 := by
  cases h : Src.firstObstacle Src.stationaryPositions x with
  | none => rw [jumpOffset_of_none x h]; norm_num
  | some sx =>
    rw [jumpOffset_of_some x sx h]
    calc (Src.jumpHeight : ℝ) * Real.sin ((1 - |x - sx| / Src.jumpRadius : ℚ) * Src.piLit)
        ≤ (Src.jumpHeight : ℝ) * 1 := by
          apply mul_le_mul_of_nonneg_left (Real.sin_le_one _)
          rw [Src.jumpHeight]; norm_num
      _ = (Src.jumpHeight : ℝ) := mul_one _
      _ = 7/20 := by rw [Src.jumpHeight]; norm_num

/-- C1: for every moving index `i ∈ [0,4)` and every time `t < i * 1.5`, the
Motion Evaluator returns exactly the parked start position `(-1.2, 0.2, 0)`. -/
theorem C1_parked_before_start (r : Rectangle) (t : ℚ) (i : ℤ)
    (hi0 : 0 ≤ i) (hi4 : i < 4) (ht : t < (i : ℚ) * (3/2)) :
    Src.updateMovingRectanglePosition r t i = ⟨-1.2, (0.2 : ℝ), 0⟩ := by
  rw [Src.updateMovingRectanglePosition,
    if_pos (by rw [Src.adjustedTime, Src.delayBetweenRectangles]; linarith)]
  refine congrArg₂ (Vec3.mk · · 0) (by norm_num) ?_
  norm_num

/-- Witness for C1 at `i = 1`, `t = 0`, on a concrete rectangle. -/
theorem C1_witness :
    ((0 : ℚ) < ((1 : ℤ) : ℚ) * (3/2)) ∧
    Src.updateMovingRectanglePosition sampleRect 0 1 = ⟨-1.2, (0.2 : ℝ), 0⟩ :=
  ⟨by norm_num, C1_parked_before_start sampleRect 0 1 (by norm_num) (by norm_num)
    (by norm_num)⟩

/-- C2: for every moving index and every time `t ≥ i * 1.5`, the Motion
Evaluator is periodic with period `6`: the position at `t` equals the
position at `t + 6`. -/
theorem C2_periodic (r : Rectangle) (t : ℚ) (i : ℤ)
    (ht : (i : ℚ) * (3/2) ≤ t) :
    Src.updateMovingRectanglePosition r t i =
    Src.updateMovingRectanglePosition r (t + 6) i := by
  have ha : 0 ≤ Src.adjustedTime t i := by
    rw [Src.adjustedTime, Src.delayBetweenRectangles]; linarith
  have hab : Src.adjustedTime (t + 6) i = Src.adjustedTime t i + 6 := by
    rw [Src.adjustedTime, Src.adjustedTime]; ring
  have hmod : qfmod (Src.adjustedTime (t + 6) i) Src.cycleTime
      = qfmod (Src.adjustedTime t i) Src.cycleTime := by
    rw [hab, Src.cycleTime, qfmod_add_six _ ha]
  rw [Src.updateMovingRectanglePosition, Src.updateMovingRectanglePosition,
    if_neg (by linarith), if_neg (by rw [hab]; linarith), hmod]

/-- Witness for C2 at `i = 0`, `t = 0`, on a concrete rectangle. -/
theorem C2_witness :
    (((0 : ℤ) : ℚ) * (3/2) ≤ 0) ∧
    Src.updateMovingRectanglePosition sampleRect 0 0 =
    Src.updateMovingRectanglePosition sampleRect (0 + 6) 0 :=
  ⟨by norm_num, C2_periodic sampleRect 0 0 (by norm_num)⟩

/-- C9: the Motion Evaluator never reads its `Rectangle` argument: any two
rectangles give the same result at the same `(time, rectIndex)`, and the
function is pure (it writes nothing). -/
theorem C9_rect_irrelevant (r1 r2 : Rectangle) (t : ℚ) (i : ℤ) :
    Src.updateMovingRectanglePosition r1 t i =
    Src.updateMovingRectanglePosition r2 t i := rfl

/-- C10: the two copies of the program agree extensionally: the Motion
Evaluators of `src/main.cpp` and `main (2).cpp` return the same position on
every input, and the two Scene Builders return the same entity list. -/
theorem C10_copies_agree :
    (∀ (r : Rectangle) (t : ℚ) (i : ℤ),
      Src.updateMovingRectanglePosition r t i =
      Alt.updateMovingRectanglePosition r t i) ∧
    Src.generateRectangles = Alt.generateRectangles :=
  ⟨fun _ _ _ => rfl, rfl⟩

/-- C3: for every moving index and every time `t ≥ 0`, the `y` coordinate
returned by the Motion Evaluator lies in `[0.2, 0.2 + 0.35]`; in particular
the sine jump term is never negative. -/
theorem C3_y_bounded (r : Rectangle) (t : ℚ) (i : ℤ) (ht : 0 ≤ t) :
    (Src.updateMovingRectanglePosition r t i).y ∈ Set.Icc (0.2 : ℝ) 0.55 := by
  rw [Src.updateMovingRectanglePosition]
  split_ifs with hc
  · constructor <;> norm_num
  · dsimp only
    have h1 := jumpOffset_nonneg
      (Src.movingX (qfmod (Src.adjustedTime t i) Src.cycleTime))
    have h2 := jumpOffset_le
      (Src.movingX (qfmod (Src.adjustedTime t i) Src.cycleTime))
    have hb : ((Src.baseY : ℚ) : ℝ) = 1/5 := by rw [Src.baseY]; norm_num
    constructor
    · rw [hb] at *; norm_num; linarith
    · rw [hb] at *; norm_num; linarith

/-- Witness for C3 at `i = 0`, `t = 0`, on a concrete rectangle. -/
theorem C3_witness :
    ((0:ℚ) ≤ 0) ∧
    (Src.updateMovingRectanglePosition sampleRect 0 0).y ∈ Set.Icc (0.2 : ℝ) 0.55 :=
  ⟨le_refl 0, C3_y_bounded sampleRect 0 0 (le_refl 0)⟩

/-- Auxiliary: `movingX` is monotone on adjusted times below one cycle (the
wrap guard `x > 1.2` never fires there). -/
lemma movingX_mono {m1 m2 : ℚ} (h2 : m2 < 6) (h : m1 ≤ m2) :
    Src.movingX m1 ≤ Src.movingX m2 := by
  rw [Src.movingX, Src.movingX, Src.cycleTime]
  rw [if_neg (by linarith), if_neg (by linarith)]
  linarith

/-- C5: for `t1 < t2` that both fall in the same cycle after the start delay
of index `i` (equal cycle numbers, i.e. no wrap between them), the `x`
coordinate of the Motion Evaluator is monotone. -/
theorem C5_x_monotone (r : Rectangle) (t1 t2 : ℚ) (i : ℤ)
    (h0 : (i : ℚ) * (3/2) ≤ t1) (h12 : t1 < t2)
    (hsame : ⌊(t1 - (i : ℚ) * (3/2)) / 6⌋ = ⌊(t2 - (i : ℚ) * (3/2)) / 6⌋) :
    (Src.updateMovingRectanglePosition r t1 i).x
      ≤ (Src.updateMovingRectanglePosition r t2 i).x := by
  have e1 : Src.adjustedTime t1 i = t1 - (i : ℚ) * (3/2) := by
    rw [Src.adjustedTime, Src.delayBetweenRectangles]
  have e2 : Src.adjustedTime t2 i = t2 - (i : ℚ) * (3/2) := by
    rw [Src.adjustedTime, Src.delayBetweenRectangles]
  have ha1 : 0 ≤ Src.adjustedTime t1 i := by rw [e1]; linarith
  have ha2 : 0 ≤ Src.adjustedTime t2 i := by rw [e2]; linarith
  have q1 : qfmod (Src.adjustedTime t1 i) Src.cycleTime
      = (t1 - (i : ℚ) * (3/2)) - 6 * (⌊(t1 - (i : ℚ) * (3/2)) / 6⌋ : ℚ) := by
    rw [e1, Src.cycleTime, qfmod,
      if_pos (div_nonneg (by linarith) (by norm_num))]
  have q2 : qfmod (Src.adjustedTime t2 i) Src.cycleTime
      = (t2 - (i : ℚ) * (3/2)) - 6 * (⌊(t2 - (i : ℚ) * (3/2)) / 6⌋ : ℚ) := by
    rw [e2, Src.cycleTime, qfmod,
      if_pos (div_nonneg (by linarith) (by norm_num))]
  rw [Src.updateMovingRectanglePosition, Src.updateMovingRectanglePosition,
    if_neg (not_lt.2 ha1), if_neg (not_lt.2 ha2)]
  dsimp only
  rw [q1, q2, ← hsame]
  have f2 : (t2 - (i : ℚ) * (3/2)) / 6
      < (⌊(t2 - (i : ℚ) * (3/2)) / 6⌋ : ℚ) + 1 := Int.lt_floor_add_one _
  rw [← hsame] at f2
  apply movingX_mono
  · linarith
  · linarith

/-- Witness for C5 at `i = 0`, `t1 = 1`, `t2 = 2`. -/
theorem C5_witness :
    (((0 : ℤ) : ℚ) * (3/2) ≤ 1) ∧ ((1:ℚ) < 2) ∧
    (⌊((1:ℚ) - ((0 : ℤ) : ℚ) * (3/2)) / 6⌋ = ⌊((2:ℚ) - ((0 : ℤ) : ℚ) * (3/2)) / 6⌋) ∧
    (Src.updateMovingRectanglePosition sampleRect 1 0).x
      ≤ (Src.updateMovingRectanglePosition sampleRect 2 0).x :=
  ⟨by norm_num, by norm_num, by norm_num,
    C5_x_monotone sampleRect 1 2 0 (by norm_num) (by norm_num) (by norm_num)⟩

/-- C6: the Scene Builder returns exactly 8 entities; the first 4 are
stationary with positions `(-0.7 + i*0.45, -0.5, 0)` for `i ∈ [0,4)`, the
last 4 are moving and all share the start position `(-1.2, 0.2, 0)`. -/
theorem C6_scene :
    Src.generateRectangles.length = 8 ∧
    (Src.generateRectangles.take 4).map Rectangle.isStationary
      = [true, true, true, true] ∧
    (Src.generateRectangles.take 4).map Rectangle.position
      = (List.range 4).map (fun i => (-7/10 + (i : ℚ) * (9/20), -1/2, 0)) ∧
    (Src.generateRectangles.drop 4).map Rectangle.isStationary
      = [false, false, false, false] ∧
    (Src.generateRectangles.drop 4).map Rectangle.position
      = [(-6/5, 1/5, 0), (-6/5, 1/5, 0), (-6/5, 1/5, 0), (-6/5, 1/5, 0)] := by
  refine ⟨?_, ?_, ?_, ?_, ?_⟩ <;>
    simp [Src.generateRectangles, Src.spacing, List.range_succ]

/-- Auxiliary: any successful search result together with the no-match /
first-match dichotomy, for an arbitrary obstacle list. -/
lemma firstObstacle_spec (l : List ℚ) (x : ℚ) :
    (Src.firstObstacle l x = none ∧ ∀ sx ∈ l, ¬(|x - sx| < Src.jumpRadius)) ∨
    (∃ sx ∈ l, |x - sx| < Src.jumpRadius ∧ Src.firstObstacle l x = some sx) := by
  induction l with
  | nil => left; exact ⟨rfl, by simp⟩
  | cons a rest ih =>
    by_cases h : |x - a| < Src.jumpRadius
    · right
      exact ⟨a, List.mem_cons_self a rest, h, by rw [Src.firstObstacle, if_pos h]⟩
    · rcases ih with ⟨hn, hall⟩ | ⟨sx, hmem, hd, hfind⟩
      · left
        refine ⟨by rw [Src.firstObstacle, if_neg h]; exact hn, ?_⟩
        intro sx hsx
        rcases List.mem_cons.1 hsx with rfl | hsx
        · exact h
        · exact hall sx hsx
      · right
        exact ⟨sx, List.mem_cons_of_mem a hmem, hd,
          by rw [Src.firstObstacle, if_neg h]; exact hfind⟩

/-- Auxiliary: the four obstacles are `0.45` apart while the jump radius is
`0.12`, so at most one obstacle can be within the radius of a given `x`. -/
lemma obstacle_unique (x sx1 sx2 : ℚ)
    (h1 : sx1 ∈ Src.stationaryPositions) (h2 : sx2 ∈ Src.stationaryPositions)
    (d1 : |x - sx1| < Src.jumpRadius) (d2 : |x - sx2| < Src.jumpRadius) :
    sx1 = sx2 := by
  rw [Src.jumpRadius] at d1 d2
  rw [abs_lt] at d1 d2
  rw [Src.stationaryPositions] at h1 h2
  simp only [List.mem_cons, List.not_mem_nil, or_false] at h1 h2
  obtain ⟨d1a, d1b⟩ := d1
  obtain ⟨d2a, d2b⟩ := d2
  rcases h1 with rfl | rfl | rfl | rfl <;> rcases h2 with rfl | rfl | rfl | rfl <;>
    first
      | rfl
      | (exfalso; linarith)

/-- C8: for every horizontal position `x`, at most one obstacle contributes
a jump offset: either no obstacle is within the jump radius and the offset
is zero, or there is an obstacle within the radius, it is the one the
in-order scan finds first (here even unique), and the whole offset is that
single contribution — contributions never stack. -/
theorem C8_first_match_only (x : ℚ) :
    (Src.firstObstacle Src.stationaryPositions x = none ∧
      Src.jumpOffset x = 0 ∧
      ∀ sx ∈ Src.stationaryPositions, ¬(|x - sx| < Src.jumpRadius)) ∨
    (∃ sx ∈ Src.stationaryPositions,
      |x - sx| < Src.jumpRadius ∧
      Src.firstObstacle Src.stationaryPositions x = some sx ∧
      Src.jumpOffset x =
        (Src.jumpHeight : ℝ) *
          Real.sin ((1 - |x - sx| / Src.jumpRadius : ℚ) * Src.piLit) ∧
      ∀ sx2 ∈ Src.stationaryPositions,
        |x - sx2| < Src.jumpRadius → sx2 = sx) := by
  rcases firstObstacle_spec Src.stationaryPositions x with ⟨hn, hall⟩ |
    ⟨sx, hmem, hd, hfind⟩
  · left
    exact ⟨hn, jumpOffset_of_none x hn, hall⟩
  · right
    refine ⟨sx, hmem, hd, hfind, jumpOffset_of_some x sx hfind, ?_⟩
    intro sx2 hm2 hd2
    exact obstacle_unique x sx2 sx hm2 hmem hd2 hd

/-- Auxiliary: the sine of the literal `3.14159` is strictly positive
(the literal is strictly between `0` and `π`). -/
lemma sin_piLit_pos : 0 < Real.sin Src.piLit :=
  Real.sin_pos_of_pos_of_lt_pi piLit_pos piLit_lt_pi

/-- Auxiliary: the sine of the literal `3.14159` is below `10⁻⁵` — far from
the value `1` a peak would need (`sin x = sin (π - x) < π - x`). -/
lemma sin_piLit_lt : Real.sin Src.piLit < 1/100000 := by
  have h1 : Real.sin (Real.pi - Src.piLit) = Real.sin Src.piLit :=
    Real.sin_pi_sub Src.piLit
  have h2 : 0 < Real.pi - Src.piLit := by
    have := piLit_lt_pi; linarith
  have h3 : Real.sin (Real.pi - Src.piLit) < Real.pi - Src.piLit :=
    Real.sin_lt h2
  have h4 : Real.pi < 3.141593 := Real.pi_lt_d6
  rw [h1] at h3
  rw [Src.piLit] at h3 ⊢
  norm_num at h3 h4 ⊢
  linarith

/-- Auxiliary: the parked `x` position `-1.2` is not near any obstacle. -/
lemma firstObstacle_parked :
    Src.firstObstacle Src.stationaryPositions (-6/5) = none := by
  rw [Src.stationaryPositions,
    Src.firstObstacle, if_neg (by rw [Src.jumpRadius]; norm_num [abs_lt]),
    Src.firstObstacle, if_neg (by rw [Src.jumpRadius]; norm_num [abs_lt]),
    Src.firstObstacle, if_neg (by rw [Src.jumpRadius]; norm_num [abs_lt]),
    Src.firstObstacle, if_neg (by rw [Src.jumpRadius]; norm_num [abs_lt])]
  rfl

/-- Auxiliary: in every branch, the returned `y` is the base height plus the
jump offset evaluated at the returned `x`. -/
lemma upd_y_eq (r : Rectangle) (t : ℚ) (i : ℤ) :
    (Src.updateMovingRectanglePosition r t i).y
      = ((Src.baseY : ℚ) : ℝ)
        + Src.jumpOffset ((Src.updateMovingRectanglePosition r t i).x) := by
  rw [Src.updateMovingRectanglePosition]
  split_ifs with hc
  · dsimp only
    rw [jumpOffset_of_none _ firstObstacle_parked, Src.baseY]
    norm_num
  · dsimp only

/-- Auxiliary: at an exact obstacle coordinate the scan finds that obstacle
with jump factor `1`, so the offset is `jumpHeight * sin 3.14159`. -/
lemma jumpOffset_at_center (c : ℚ) (hc : c ∈ Src.stationaryPositions) :
    Src.jumpOffset c = (Src.jumpHeight : ℝ) * Real.sin Src.piLit := by
  have hfind : Src.firstObstacle Src.stationaryPositions c = some c := by
    rw [Src.stationaryPositions] at hc
    simp only [List.mem_cons, List.not_mem_nil, or_false] at hc
    rcases hc with rfl | rfl | rfl | rfl
    · rw [Src.stationaryPositions,
        Src.firstObstacle, if_pos (by rw [Src.jumpRadius]; norm_num [abs_lt])]
    · rw [Src.stationaryPositions,
        Src.firstObstacle, if_neg (by rw [Src.jumpRadius]; norm_num [abs_lt]),
        Src.firstObstacle, if_pos (by rw [Src.jumpRadius]; norm_num [abs_lt])]
    · rw [Src.stationaryPositions,
        Src.firstObstacle, if_neg (by rw [Src.jumpRadius]; norm_num [abs_lt]),
        Src.firstObstacle, if_neg (by rw [Src.jumpRadius]; norm_num [abs_lt]),
        Src.firstObstacle, if_pos (by rw [Src.jumpRadius]; norm_num [abs_lt])]
    · rw [Src.stationaryPositions,
        Src.firstObstacle, if_neg (by rw [Src.jumpRadius]; norm_num [abs_lt]),
        Src.firstObstacle, if_neg (by rw [Src.jumpRadius]; norm_num [abs_lt]),
        Src.firstObstacle, if_neg (by rw [Src.jumpRadius]; norm_num [abs_lt]),
        Src.firstObstacle, if_pos (by rw [Src.jumpRadius]; norm_num [abs_lt])]
  rw [jumpOffset_of_some _ _ hfind]
  have h1 : ((1 - |c - c| / Src.jumpRadius : ℚ) : ℝ) = 1 := by
    rw [sub_self, abs_zero, zero_div, sub_zero]; norm_num
  rw [h1, one_mul]

/-- Auxiliary: `fmod(3.5, 6) = 3.5`. -/
lemma qfmod_seven_halves : qfmod (7/2) 6 = 7/2 := by
  rw [qfmod, if_pos (by norm_num)]
  norm_num

/-- Auxiliary: at `time = 3.5`, `rectIndex = 0`, the computed `x` is exactly
the third obstacle coordinate `0.2`. -/
lemma x_at_seven_halves :
    (Src.updateMovingRectanglePosition sampleRect (7/2) 0).x = 1/5 := by
  have ha : Src.adjustedTime (7/2) 0 = 7/2 := by
    rw [Src.adjustedTime, Src.delayBetweenRectangles]; norm_num
  rw [Src.updateMovingRectanglePosition, if_neg (by rw [ha]; norm_num)]
  dsimp only
  rw [ha, Src.cycleTime, qfmod_seven_halves, Src.movingX, Src.cycleTime,
    if_neg (by norm_num)]
  norm_num

/-- C4 counterexample: at `movingIndex = 0`, `time = 3.5`, the computed `x`
is exactly the obstacle coordinate `0.2`, yet the returned `y` is NOT
`baseY + JUMP_HEIGHT = 0.55` (it is `0.2 + 0.35 * sin 3.14159 ≈ 0.2000009`,
because `sin(1 * 3.14159) ≈ 2.65e-6`, not `1`). -/
theorem C4_center_not_peak :
    (Src.updateMovingRectanglePosition sampleRect (7/2) 0).x
      ∈ Src.stationaryPositions ∧
    (Src.updateMovingRectanglePosition sampleRect (7/2) 0).y ≠ (0.55 : ℝ) := by
  have hx : (Src.updateMovingRectanglePosition sampleRect (7/2) 0).x
      ∈ Src.stationaryPositions := by
    rw [x_at_seven_halves, Src.stationaryPositions]
    simp only [List.mem_cons, List.not_mem_nil, or_false]
    norm_num
  refine ⟨hx, ?_⟩
  rw [upd_y_eq, jumpOffset_at_center _ hx]
  have h1 := sin_piLit_pos
  have h2 := sin_piLit_lt
  have hb : ((Src.baseY : ℚ) : ℝ) = 1/5 := by rw [Src.baseY]; norm_num
  have hh : ((Src.jumpHeight : ℚ) : ℝ) = 7/20 := by rw [Src.jumpHeight]; norm_num
  rw [hb, hh]
  intro hEq
  norm_num at hEq
  linarith

/-- C4 (amended): whenever the computed `x` equals one of the obstacle
coordinates exactly, the returned `y` is `baseY + JUMP_HEIGHT * sin 3.14159`,
which is strictly between `0.2` and `0.21` — not `0.55`; the literal peak
value `baseY + JUMP_HEIGHT` is not attained at the center because
`sin(1 * 3.14159)` is nearly zero. -/
theorem C4_amended_center_value (r : Rectangle) (t : ℚ) (i : ℤ)
    (h : (Src.updateMovingRectanglePosition r t i).x ∈ Src.stationaryPositions) :
    (Src.updateMovingRectanglePosition r t i).y
      = ((Src.baseY : ℚ) : ℝ) + (Src.jumpHeight : ℝ) * Real.sin Src.piLit ∧
    (0.2 : ℝ) < (Src.updateMovingRectanglePosition r t i).y ∧
    (Src.updateMovingRectanglePosition r t i).y < (0.21 : ℝ) := by
  have hy : (Src.updateMovingRectanglePosition r t i).y
      = ((Src.baseY : ℚ) : ℝ) + (Src.jumpHeight : ℝ) * Real.sin Src.piLit := by
    rw [upd_y_eq, jumpOffset_at_center _ h]
  have h1 := sin_piLit_pos
  have h2 := sin_piLit_lt
  have hb : ((Src.baseY : ℚ) : ℝ) = 1/5 := by rw [Src.baseY]; norm_num
  have hh : ((Src.jumpHeight : ℚ) : ℝ) = 7/20 := by rw [Src.jumpHeight]; norm_num
  refine ⟨hy, ?_, ?_⟩
  · rw [hy, hb, hh]; norm_num; linarith
  · rw [hy, hb, hh]; norm_num; linarith

/-- Witness for the amended C4 at `movingIndex = 0`, `time = 3.5`, where the
computed `x` is exactly the obstacle coordinate `0.2`. -/
theorem C4_witness :
    ((Src.updateMovingRectanglePosition sampleRect (7/2) 0).x
      ∈ Src.stationaryPositions) ∧
    ((Src.updateMovingRectanglePosition sampleRect (7/2) 0).y
      = ((Src.baseY : ℚ) : ℝ) + (Src.jumpHeight : ℝ) * Real.sin Src.piLit ∧
    (0.2 : ℝ) < (Src.updateMovingRectanglePosition sampleRect (7/2) 0).y ∧
    (Src.updateMovingRectanglePosition sampleRect (7/2) 0).y < (0.21 : ℝ)) := by
  have hx : (Src.updateMovingRectanglePosition sampleRect (7/2) 0).x
      ∈ Src.stationaryPositions := by
    rw [x_at_seven_halves, Src.stationaryPositions]
    simp only [List.mem_cons, List.not_mem_nil, or_false]
    norm_num
  exact ⟨hx, C4_amended_center_value sampleRect (7/2) 0 hx⟩

/-- Auxiliary: binary32 value of the literal `0.7`. -/
lemma flAbs_of_07 : flAbs (7/10) = 11744051/2^24 := by
  have h : normExp 12 (7/10) 0 = (7/5, -1) := by norm_num [normExp]
  rw [flAbs, h, roundHalfEven]
  norm_num
  rw [shift2, if_neg (by norm_num)]
  norm_num [Int.toNat]

/-- Auxiliary: `0.25` is exactly representable in binary32. -/
lemma flAbs_of_quarter : flAbs (1/4) = 1/4 := by
  have h : normExp 12 (1/4) 0 = (1, -2) := by norm_num [normExp]
  rw [flAbs, h, roundHalfEven]
  norm_num
  rw [shift2, if_neg (by norm_num)]
  norm_num [Int.toNat]

/-- Auxiliary: binary32 value of the literal `0.2` (rounded up). -/
lemma flAbs_of_fifth : flAbs (1/5) = 13421773/2^26 := by
  have h : normExp 12 (1/5) 0 = (8/5, -3) := by norm_num [normExp]
  rw [flAbs, h, roundHalfEven]
  norm_num
  rw [shift2, if_neg (by norm_num)]
  norm_num [Int.toNat]

/-- Auxiliary: binary32 value of the literal `0.65` (rounded down). -/
lemma flAbs_of_065 : flAbs (13/20) = 10905190/2^24 := by
  have h : normExp 12 (13/20) 0 = (13/10, -1) := by norm_num [normExp]
  rw [flAbs, h, roundHalfEven]
  norm_num
  rw [shift2, if_neg (by norm_num)]
  norm_num [Int.toNat]

/-- Auxiliary: binary32 value of the literal `0.45`. -/
lemma flAbs_of_045 : flAbs (9/20) = 15099494/2^25 := by
  have h : normExp 12 (9/20) 0 = (9/5, -2) := by norm_num [normExp]
  rw [flAbs, h, roundHalfEven]
  norm_num
  rw [shift2, if_neg (by norm_num)]
  norm_num [Int.toNat]

/-- Auxiliary: the float `0.45f` is itself representable (rounding it again
changes nothing). -/
lemma flAbs_of_045f : flAbs (15099494/2^25) = 15099494/2^25 := by
  have h : normExp 12 (15099494/2^25) 0 = (15099494/2^23, -2) := by
    norm_num [normExp]
  rw [flAbs, h, roundHalfEven]
  norm_num
  rw [shift2, if_neg (by norm_num)]
  norm_num [Int.toNat]

/-- Auxiliary: `2 * 0.45f` is computed exactly in binary32. -/
lemma flAbs_of_2x045f : flAbs (15099494/2^24) = 15099494/2^24 := by
  have h : normExp 12 (15099494/2^24) 0 = (15099494/2^23, -1) := by
    norm_num [normExp]
  rw [flAbs, h, roundHalfEven]
  norm_num
  rw [shift2, if_neg (by norm_num)]
  norm_num [Int.toNat]

/-- Auxiliary: `3 * 0.45f` hits a rounding tie in binary32 and rounds to the
even significand `11324620`. -/
lemma flAbs_of_3x045f : flAbs (45298482/2^25) = 11324620/2^23 := by
  have h : normExp 12 (45298482/2^25) 0 = (45298482/2^25, 0) := by
    norm_num [normExp]
  rw [flAbs, h, roundHalfEven]
  norm_num
  rw [shift2, if_neg (by norm_num)]
  norm_num [Int.toNat]

/-- Auxiliary: the float `0.7f` is itself representable. -/
lemma flAbs_of_07f : flAbs (11744051/2^24) = 11744051/2^24 := by
  have h : normExp 12 (11744051/2^24) 0 = (11744051/2^23, -1) := by
    norm_num [normExp]
  rw [flAbs, h, roundHalfEven]
  norm_num
  rw [shift2, if_neg (by norm_num)]
  norm_num [Int.toNat]

/-- Auxiliary: the sum `-0.7f + 2*0.45f = 3355443/2^24` is exactly
representable, so the final addition does not round. -/
lemma flAbs_of_sum2 : flAbs (3355443/2^24) = 3355443/2^24 := by
  have h : normExp 12 (3355443/2^24) 0 = (3355443/2^21, -3) := by
    norm_num [normExp]
  rw [flAbs, h, roundHalfEven]
  norm_num
  rw [shift2, if_neg (by norm_num)]
  norm_num [Int.toNat]

/-- Auxiliary: the sum `-0.7f + 3*0.45f = 10905189/2^24` is exactly
representable. -/
lemma flAbs_of_sum3 : flAbs (10905189/2^24) = 10905189/2^24 := by
  have h : normExp 12 (10905189/2^24) 0 = (10905189/2^23, -1) := by
    norm_num [normExp]
  rw [flAbs, h, roundHalfEven]
  norm_num
  rw [shift2, if_neg (by norm_num)]
  norm_num [Int.toNat]

/-- Auxiliary: rounding zero gives zero. -/
lemma fl_zero : fl 0 = 0 := by
  rw [fl, if_neg (by norm_num), if_pos rfl]

/-- Auxiliary: the binary32 obstacle literal `-0.7f`. -/
lemma fl_of_m07 : fl (-7/10) = -(11744051/2^24) := by
  rw [fl, if_pos (by norm_num),
    show -((-7:ℚ)/10) = 7/10 from by norm_num, flAbs_of_07]

/-- Auxiliary: the binary32 obstacle literal `-0.25f` is exact. -/
lemma fl_of_m025 : fl (-1/4) = -(1/4) := by
  rw [fl, if_pos (by norm_num),
    show -((-1:ℚ)/4) = 1/4 from by norm_num, flAbs_of_quarter]

/-- Auxiliary: the binary32 obstacle literal `0.2f`. -/
lemma fl_of_02 : fl (1/5) = 13421773/2^26 := by
  rw [fl, if_neg (by norm_num), if_neg (by norm_num), flAbs_of_fifth]

/-- Auxiliary: the binary32 obstacle literal `0.65f`. -/
lemma fl_of_065 : fl (13/20) = 10905190/2^24 := by
  rw [fl, if_neg (by norm_num), if_neg (by norm_num), flAbs_of_065]

/-- Auxiliary: the binary32 spacing literal `0.45f`. -/
lemma fl_of_045 : fl (9/20) = 15099494/2^25 := by
  rw [fl, if_neg (by norm_num), if_neg (by norm_num), flAbs_of_045]

/-- Auxiliary: the binary32 stationary x-coordinate for `i = 0` is `-0.7f`
itself. -/
lemma stationaryXFloat_0 : stationaryXFloat 0 = -(11744051/2^24) := by
  rw [stationaryXFloat, fl_of_045, fl_of_m07]
  rw [show (((0:ℕ) : ℚ) * (15099494/2^25)) = 0 from by norm_num, fl_zero]
  rw [show (-(11744051/2^24 : ℚ) + 0) = -(11744051/2^24) from by norm_num]
  rw [fl, if_pos (by norm_num),
    show -(-(11744051/2^24 : ℚ)) = 11744051/2^24 from by norm_num, flAbs_of_07f]

/-- Auxiliary: the binary32 stationary x-coordinate for `i = 1` is exactly
`-0.25`: the rounding errors of `0.7f` and `0.45f` cancel in the sum. -/
lemma stationaryXFloat_1 : stationaryXFloat 1 = -(1/4) := by
  rw [stationaryXFloat, fl_of_045, fl_of_m07]
  rw [show (((1:ℕ) : ℚ) * (15099494/2^25)) = 15099494/2^25 from by norm_num]
  rw [show (fl (15099494/2^25)) = 15099494/2^25 from by
    rw [fl, if_neg (by norm_num), if_neg (by norm_num), flAbs_of_045f]]
  rw [show (-(11744051/2^24 : ℚ) + 15099494/2^25) = -(1/4) from by norm_num]
  rw [fl, if_pos (by norm_num),
    show -(-(1/4 : ℚ)) = 1/4 from by norm_num, flAbs_of_quarter]

/-- Auxiliary: the binary32 stationary x-coordinate for `i = 2` is
`3355443/2^24 = 0.19999998807907104…`, one ulp below `0.2f`. -/
lemma stationaryXFloat_2 : stationaryXFloat 2 = 3355443/2^24 := by
  rw [stationaryXFloat, fl_of_045, fl_of_m07]
  rw [show (((2:ℕ) : ℚ) * (15099494/2^25)) = 15099494/2^24 from by norm_num]
  rw [show (fl (15099494/2^24)) = 15099494/2^24 from by
    rw [fl, if_neg (by norm_num), if_neg (by norm_num), flAbs_of_2x045f]]
  rw [show (-(11744051/2^24 : ℚ) + 15099494/2^24) = 3355443/2^24 from by norm_num]
  rw [fl, if_neg (by norm_num), if_neg (by norm_num), flAbs_of_sum2]

/-- Auxiliary: the binary32 stationary x-coordinate for `i = 3` is
`10905189/2^24 = 0.6499999165534973…`, one ulp below `0.65f`. -/
lemma stationaryXFloat_3 : stationaryXFloat 3 = 10905189/2^24 := by
  rw [stationaryXFloat, fl_of_045, fl_of_m07]
  rw [show (((3:ℕ) : ℚ) * (15099494/2^25)) = 45298482/2^25 from by norm_num]
  rw [show (fl (45298482/2^25)) = 11324620/2^23 from by
    rw [fl, if_neg (by norm_num), if_neg (by norm_num), flAbs_of_3x045f]]
  rw [show (-(11744051/2^24 : ℚ) + 11324620/2^23) = 10905189/2^24 from by norm_num]
  rw [fl, if_neg (by norm_num), if_neg (by norm_num), flAbs_of_sum3]

/-- Auxiliary: the obstacle literal list as explicit binary32 values. -/
lemma obstacleFloats_eq :
    obstacleFloats = [fl (-7/10), fl (-1/4), fl (1/5), fl (13/20)] := by
  rw [obstacleFloats, Src.stationaryPositions]
  rfl

/-- C7 counterexample: under binary32 arithmetic the third obstacle literal
`0.2f` does NOT equal the third stationary x-coordinate
`-0.7f + 2 * 0.45f`: they differ by one ulp (`2⁻²⁶`). -/
theorem C7_counterexample : obstacleFloats.getD 2 0 ≠ stationaryXFloat 2 := by
  rw [obstacleFloats_eq]
  rw [show ([fl (-7/10), fl (-1/4), fl (1/5), fl (13/20)].getD 2 0) = fl (1/5)
    from rfl]
  rw [fl_of_02, stationaryXFloat_2]
  norm_num

/-- C7 (amended): under binary32 arithmetic the first two obstacle literals
equal the corresponding stationary x-coordinates exactly, but the third and
fourth are each one ulp above them (`2⁻²⁶` and `2⁻²⁴` respectively); only in
exact real arithmetic do all four coincide (`-0.7 + i*0.45`). -/
theorem C7_amended_one_ulp :
    obstacleFloats.getD 0 0 = stationaryXFloat 0 ∧
    obstacleFloats.getD 1 0 = stationaryXFloat 1 ∧
    obstacleFloats.getD 2 0 = stationaryXFloat 2 + 1/2^26 ∧
    obstacleFloats.getD 3 0 = stationaryXFloat 3 + 1/2^24 ∧
    (∀ i : ℕ, i < 4 →
      Src.stationaryPositions.getD i 0 = -7/10 + (i : ℚ) * Src.spacing) := by
  rw [obstacleFloats_eq]
  refine ⟨?_, ?_, ?_, ?_, ?_⟩
  · rw [show ([fl (-7/10), fl (-1/4), fl (1/5), fl (13/20)].getD 0 0) = fl (-7/10)
      from rfl]
    rw [fl_of_m07, stationaryXFloat_0]
  · rw [show ([fl (-7/10), fl (-1/4), fl (1/5), fl (13/20)].getD 1 0) = fl (-1/4)
      from rfl]
    rw [fl_of_m025, stationaryXFloat_1]
  · rw [show ([fl (-7/10), fl (-1/4), fl (1/5), fl (13/20)].getD 2 0) = fl (1/5)
      from rfl]
    rw [fl_of_02, stationaryXFloat_2]
    norm_num
  · rw [show ([fl (-7/10), fl (-1/4), fl (1/5), fl (13/20)].getD 3 0) = fl (13/20)
      from rfl]
    rw [fl_of_065, stationaryXFloat_3]
    norm_num
  · intro i hi
    interval_cases i <;>
      simp [Src.stationaryPositions, Src.spacing] <;> norm_num

end RectAnim
